import Mathlib

/-!
Verification development for the house-mapper listing-to-map rendering
pipeline.  The definitions below are a shallow embedding of the two map
components of the repository: the flat-shape variant (with geocoding) and
the nested-shape variant (embedded coordinates only), together with the
address normalizer and the popup text escaper.
-/

/- Characters that the source writes as escape sequences; bound to names so
   that the embedding can mention them uniformly. -/
def bslashChar : Char := Char.ofNat 92

def squoteChar : Char := Char.ofNat 39

def dquoteChar : Char := Char.ofNat 34

def backtickChar : Char := Char.ofNat 96

def ltChar : Char := '<'

def gtChar : Char := '>'

def nlChar : Char := Char.ofNat 10

def crChar : Char := Char.ofNat 13

/-- Replace every occurrence of a single character by a replacement string,
    modelling a global single-character regex replace. -/
def replaceChar (target : Char) (repl : List Char) : List Char → List Char
  | [] => []
  | c :: rest =>
    if c == target then repl ++ replaceChar target repl rest
    else c :: replaceChar target repl rest

def noDescriptionMsg : String := "No description available"

/-- Embedding of escapeHtml from the nested-shape component: a falsy input
    yields the fixed placeholder, otherwise a chain of global replaces is
    applied in source order (backslash, single quote, double quote,
    backtick, newline to space, carriage return removed, then the two
    angle-bracket replaces exactly as the source writes them). -/
def escapeHtml (str : String) : String :=
  if str = "" then noDescriptionMsg
  else
    String.mk
      (replaceChar gtChar [ gtChar ]
        (replaceChar ltChar [ ltChar ]
          (replaceChar crChar []
            (replaceChar nlChar [ ' ' ]
              (replaceChar backtickChar [ bslashChar, backtickChar ]
                (replaceChar dquoteChar [ bslashChar, dquoteChar ]
                  (replaceChar squoteChar [ bslashChar, squoteChar ]
                    (replaceChar bslashChar [ bslashChar, bslashChar ]
                      str.data))))))))

/- Word characters in the sense of the regex escape for word boundaries:
   ASCII letters, digits and underscore. -/
def isWordChar (c : Char) : Bool := c.isAlphanum || c == '_'

def isWordO : Option Char → Bool
  | none => false
  | some c => isWordChar c

/-- A word boundary sits between two positions whose word-character status
    differs; positions outside the string count as non-word. -/
def wordBoundary (l r : Option Char) : Bool := isWordO l != isWordO r

/-- Case-insensitive check that the key starts the given text. -/
def ciStarts : List Char → List Char → Bool
  | [], _ => true
  | _ :: _, [] => false
  | k :: ks, c :: cs => (k.toLower == c.toLower) && ciStarts ks cs

/-- The key matches at the head of s, with word boundaries on both sides;
    prev is the character immediately before s in the full text. -/
def matchOK (prev : Option Char) (key s : List Char) : Bool :=
  ciStarts key s && wordBoundary prev s.head? &&
    wordBoundary ((s.take key.length).getLast?) ((s.drop key.length).head?)

/-- Global case-insensitive whole-word replace, scanning left to right;
    skip counts characters of a match still to be consumed, so matching
    resumes only after the matched region, as a global regex replace does. -/
def scanWW (key repl : List Char) : Nat → Option Char → List Char → List Char
  | _, _, [] => []
  | Nat.succ k, _, c :: rest => scanWW key repl k (some c) rest
  | 0, prev, c :: rest =>
    if matchOK prev key (c :: rest) then
      repl ++ scanWW key repl (key.length - 1) (some c) rest
    else
      c :: scanWW key repl 0 (some c) rest

def replaceWordAll (key repl : List Char) (prev : Option Char) (s : List Char) : List Char :=
  scanWW key repl 0 prev s

/-- Whether the key has a whole-word occurrence anywhere in s, given the
    character preceding s. -/
def hasWWOcc (key : List Char) : Option Char → List Char → Bool
  | _, [] => false
  | prev, c :: rest => matchOK prev key (c :: rest) || hasWWOcc key (some c) rest

/-- Substring containment test. -/
def containsSeg (pat : List Char) : List Char → Bool
  | [] => pat.isEmpty
  | c :: rest => pat.isPrefixOf (c :: rest) || containsSeg pat rest

def isSpaceChar (c : Char) : Bool :=
  c == ' ' || c == '\t' || c == nlChar || c == crChar

/-- Leading and trailing whitespace removal, as the trim call in the source. -/
def trimChars (s : List Char) : List Char :=
  ((s.dropWhile isSpaceChar).reverse.dropWhile isSpaceChar).reverse

/-- The abbreviation table of normalizeAddress, in source order. -/
def replacements : List (String × String) :=
  [ ( "Rd", "Road" ),
    ( "Ln", "Lane" ),
    ( "Dr", "Drive" ),
    ( "St", "Street" ),
    ( "Ave", "Avenue" ),
    ( "Blvd", "Boulevard" ),
    ( "Hwy", "Highway" ),
    ( "CR", "County Road" ),
    ( "Vz CR", "Vz County Road" ),
    ( "Us Highway", "US Hwy" ),
    ( "#", "" ) ]

def applyRule (s : List Char) (kv : String × String) : List Char :=
  replaceWordAll kv.1.data kv.2.data none s

/-- Embedding of normalizeAddress: falsy input passes through, otherwise the
    trimmed address is run through each table rule in order, each rule being
    a global case-insensitive whole-word replace. -/
def normalizeAddress (address : String) : String :=
  if address = "" then address
  else String.mk (replacements.foldl applyRule (trimChars address.data))

example : normalizeAddress "123 Main St" = "123 Main Street" := by decide

example : normalizeAddress "Broadway" = "Broadway" := by decide

example : normalizeAddress "Us Hwy 80" = "US Hwy 80" := by decide

example : normalizeAddress "Vz CR 2311" = "Vz County Road 2311" := by decide

example : escapeHtml "a<b>" = "a<b>" := by decide

/- ------------------------------------------------------------------ -/
/- Pipeline data model shared by both map components.                  -/
/- ------------------------------------------------------------------ -/

structure Coord where
  lat : Int
  lng : Int
deriving DecidableEq

/-- Response of the external geocoding service: an ordered result list, or
    a transport error (which the source catches). -/
inductive GeoResp where
  | results (rs : List Coord)
  | err
deriving DecidableEq

/-- Resolving a geocoding response as the source does: take the first
    result, and treat an empty result set or a transport error as null. -/
def geoLookup (geo : String → GeoResp) (na : String) : Option Coord :=
  match geo na with
  | GeoResp.results (c :: _) => some c
  | GeoResp.results [] => none
  | GeoResp.err => none

/-- Embedding of geocodeAddress from the flat-shape component: normalize
    the address, issue one request with the normalized address, and return
    the first coordinate or none; the second component records the single
    request that was issued. -/
def geocodeAddress (geo : String → GeoResp) (address : String) : Option Coord × String :=
  let na := normalizeAddress address
  (geoLookup geo na, na)

/-- Behaviour of the marker placement block for one listing: it either runs
    to completion, or it throws before the marker is pushed onto the marker
    collection (pin or marker construction fails), or it throws after the
    push (info window creation, listener attachment or bounds extension
    fails). -/
inductive PlaceOutcome where
  | success
  | throwBeforePush
  | throwAfterPush
deriving DecidableEq

structure Marker where
  glyph : String
  title : String
  pos : Coord
deriving DecidableEq

/-- Observable state of one component instance during a rendering pass:
    the reactive success counter and skip list, the module-level marker
    collection, the pass-local bounds accumulator, the reactive error
    message, plus two per-call observations used by the theorems: the
    geocoding requests issued during the call and whether the viewport
    fit was invoked. -/
structure MapState where
  successCount : Nat
  skipped : List (String × String)
  markers : List Marker
  bounds : List Coord
  errorMsg : Option String
  requests : List String
  fitCalled : Bool
deriving DecidableEq

def initState : MapState :=
  { successCount := 0, skipped := [], markers := [], bounds := [],
    errorMsg := none, requests := [], fitCalled := false }

def truthyS : Option String → Bool
  | none => false
  | some s => s != ""

def truthyI : Option Int → Bool
  | none => false
  | some v => v != 0

def noAddressMsg : String := "No address"

def invalidAddressMsg : String := "Invalid or missing address"

def noHousesProvidedMsg : String := "No houses provided. Please check the data source."

def noneDisplayedFlatMsg : String := "No houses could be geocoded and displayed on the map."

def noneDisplayedNestedMsg : String := "No houses could be displayed on the map."

/- ------------------------------------------------------------------ -/
/- Flat-shape variant (free-text address, geocoding lookups).          -/
/- ------------------------------------------------------------------ -/

/-- A flat-shape listing; only the address field drives control flow in
    the placement loop (price, bedrooms and the other popup-only fields
    never influence any decision and are not modelled). -/
structure FlatHouse where
  address : Option String
deriving DecidableEq

/-- One iteration of the placement loop of the flat-shape component:
    a falsy address is skipped with the fixed text, otherwise one geocoding
    request is issued; a null result records a skip carrying the raw
    address; otherwise the marker block runs with the pin glyph taken from
    the current success count plus one, and a thrown placement error is
    only logged, mutating nothing except a possibly already-pushed marker. -/
def processHouseFlat (geo : String → GeoResp) (place : String → PlaceOutcome)
    (st : MapState) (entry : String × FlatHouse) : MapState :=
  let mlsId := entry.1
  let house := entry.2
  if truthyS house.address then
    let a := house.address.getD ""
    let r := geocodeAddress geo a
    let st1 := { st with requests := st.requests ++ [ r.2 ] }
    match r.1 with
    | none => { st1 with skipped := st1.skipped ++ [ ( mlsId, a ) ] }
    | some c =>
      match place mlsId with
      | PlaceOutcome.throwBeforePush => st1
      | PlaceOutcome.throwAfterPush =>
        { st1 with markers :=
            st1.markers ++ [ { glyph := toString (st1.successCount + 1), title := a, pos := c } ] }
      | PlaceOutcome.success =>
        { st1 with
            markers :=
              st1.markers ++ [ { glyph := toString (st1.successCount + 1), title := a, pos := c } ],
            bounds := st1.bounds ++ [ c ],
            successCount := st1.successCount + 1 }
  else
    { st with skipped := st.skipped ++ [ ( mlsId, noAddressMsg ) ] }

/-- Embedding of addHousesToMap from the flat-shape component: empty input
    returns early with a message and no reset; otherwise the success count
    and skip list are rebuilt, every entry is processed in order, and at
    the end either the viewport fit runs (some success) or the top-level
    message is set. -/
def addHousesToMapFlat (geo : String → GeoResp) (place : String → PlaceOutcome)
    (houses : List (String × FlatHouse)) (st : MapState) : MapState :=
  let st0 := { st with requests := [], fitCalled := false, bounds := [] }
  if houses = [] then { st0 with errorMsg := some noHousesProvidedMsg }
  else
    let st1 := { st0 with successCount := 0, skipped := [] }
    let st2 := houses.foldl (processHouseFlat geo place) st1
    if st2.successCount > 0 then { st2 with fitCalled := true }
    else { st2 with errorMsg := some noneDisplayedFlatMsg }

/- ------------------------------------------------------------------ -/
/- Nested-shape variant (structured address, embedded coordinates).    -/
/- ------------------------------------------------------------------ -/

structure NestedAddr where
  streetAddress : Option String
  city : Option String
  state : Option String
  zipcode : Option String
deriving DecidableEq

structure NestedProp where
  address : Option NestedAddr
  latitude : Option Int
  longitude : Option Int
deriving DecidableEq

/-- A nested-shape listing: the record read by the component is the value
    of the property field, which may itself be absent. -/
structure NestedHouse where
  property : Option NestedProp
deriving DecidableEq

def addrValid (a : NestedAddr) : Bool :=
  truthyS a.streetAddress && truthyS a.city && truthyS a.state && truthyS a.zipcode

def fullAddressOf (a : NestedAddr) : String :=
  a.streetAddress.getD "" ++ ", " ++ a.city.getD "" ++ ", " ++
    a.state.getD "" ++ " " ++ a.zipcode.getD ""

/-- One iteration of the placement loop of the nested-shape component: a
    listing with a missing property record or any falsy address component
    is skipped with the fixed text; otherwise the embedded coordinates are
    consulted by truthiness, no geocoding request is ever issued, and a
    listing without truthy coordinates is skipped carrying the full
    address; placement failures are only logged, as in the flat variant. -/
def processHouseNested (place : String → PlaceOutcome)
    (st : MapState) (entry : String × NestedHouse) : MapState :=
  let zpid := entry.1
  match entry.2.property with
  | none => { st with skipped := st.skipped ++ [ ( zpid, invalidAddressMsg ) ] }
  | some house =>
    match house.address with
    | none => { st with skipped := st.skipped ++ [ ( zpid, invalidAddressMsg ) ] }
    | some addr =>
      if addrValid addr then
        let fullAddress := fullAddressOf addr
        let coords : Option Coord :=
          if truthyI house.latitude && truthyI house.longitude then
            some { lat := house.latitude.getD 0, lng := house.longitude.getD 0 }
          else none
        match coords with
        | none => { st with skipped := st.skipped ++ [ ( zpid, fullAddress ) ] }
        | some c =>
          match place zpid with
          | PlaceOutcome.throwBeforePush => st
          | PlaceOutcome.throwAfterPush =>
            { st with markers :=
                st.markers ++
                  [ { glyph := toString (st.successCount + 1), title := fullAddress, pos := c } ] }
          | PlaceOutcome.success =>
            { st with
                markers :=
                  st.markers ++
                    [ { glyph := toString (st.successCount + 1), title := fullAddress, pos := c } ],
                bounds := st.bounds ++ [ c ],
                successCount := st.successCount + 1 }
      else
        { st with skipped := st.skipped ++ [ ( zpid, invalidAddressMsg ) ] }

/-- Embedding of addHousesToMap from the nested-shape component; the frame
    is the same as in the flat variant, with the nested per-listing step
    and the nested no-display message. -/
def addHousesToMapNested (place : String → PlaceOutcome)
    (houses : List (String × NestedHouse)) (st : MapState) : MapState :=
  let st0 := { st with requests := [], fitCalled := false, bounds := [] }
  if houses = [] then { st0 with errorMsg := some noHousesProvidedMsg }
  else
    let st1 := { st0 with successCount := 0, skipped := [] }
    let st2 := houses.foldl (processHouseNested place) st1
    if st2.successCount > 0 then { st2 with fitCalled := true }
    else { st2 with errorMsg := some noneDisplayedNestedMsg }


/-- Glyph invariant: the glyphs of the marker collection list the success
    indices one to the current success count, in order. -/
def glyphInv (st : MapState) : Prop :=
  st.markers.map Marker.glyph = (List.range st.successCount).map (fun i => toString (i + 1))

/- Concrete fixtures used by the counterexamples and witnesses. -/

def addrOK : NestedAddr :=
  { streetAddress := some "520 County Road 2311", city := some "Mabank",
    state := some "TX", zipcode := some "75147" }

def houseNoCoords : NestedHouse :=
  { property := some { address := some addrOK, latitude := none, longitude := none } }

def houseZeroLat : NestedHouse :=
  { property := some { address := some addrOK, latitude := some 0, longitude := some 5 } }

def houseWithCoords : NestedHouse :=
  { property := some { address := some addrOK, latitude := some 30, longitude := some (-95) } }

/- Flat-variant fixtures. -/

def flatA : FlatHouse := { address := some "1 A St" }

def flatB : FlatHouse := { address := some "2 B St" }

def flatMain : FlatHouse := { address := some "1 Main St" }

def geoBoth : String → GeoResp := fun _ => GeoResp.results [ { lat := 1, lng := 2 } ]

def geoErr : String → GeoResp := fun _ => GeoResp.err

def placeFailB : String → PlaceOutcome :=
  fun id => if id = "h2" then PlaceOutcome.throwBeforePush else PlaceOutcome.success

def geoScenC : String → GeoResp :=
  fun s => if s = "1 A Street" then GeoResp.results [ { lat := 30, lng := -95 } ] else GeoResp.err

/- Further nested-variant fixtures. -/

def houseNoZip : NestedHouse :=
  { property := some
      { address := some
          { streetAddress := some "1 A St", city := some "Mabank",
            state := some "TX", zipcode := none },
        latitude := some 30, longitude := some (-95) } }

def dirtyState : MapState :=
  { initState with successCount := 2, skipped := [ ( "old", "rec" ) ] }
/- ------------------------------------------------------------------ -/
/- Normalizer lemmas.                                                  -/
/- ------------------------------------------------------------------ -/

lemma isPrefixOf_append_self (a b : List Char) : a.isPrefixOf (a ++ b) = true := by
  induction a with
  | nil => simp [List.isPrefixOf]
  | cons x xs ih => simp [List.isPrefixOf, ih]

lemma containsSeg_append_left (pat t : List Char) : containsSeg pat (pat ++ t) = true := by
  cases pat with
  | nil =>
    cases t with
    | nil => simp [containsSeg]
    | cons c r => simp [containsSeg, List.isPrefixOf]
  | cons p ps =>
    rw [List.cons_append]
    simp [containsSeg, isPrefixOf_append_self]

lemma containsSeg_cons (pat : List Char) (c : Char) (s : List Char)
    (h : containsSeg pat s = true) : containsSeg pat (c :: s) = true := by
  cases s with
  | nil =>
    simp [containsSeg, List.isEmpty_iff] at h
    subst h
    simp [containsSeg, List.isPrefixOf]
  | cons d r =>
    have hu : containsSeg pat (c :: d :: r) =
        (pat.isPrefixOf (c :: d :: r) || containsSeg pat (d :: r)) := rfl
    rw [hu, h, Bool.or_true]

/-- If the key has a whole-word occurrence, the scan emits the replacement
    at least once, so the replacement appears in the output. -/
lemma scanWW_contains_of_occ (key repl : List Char) :
    ∀ s prev, hasWWOcc key prev s = true →
      containsSeg repl (scanWW key repl 0 prev s) = true := by
  intro s
  induction s with
  | nil => intro prev h; simp [hasWWOcc] at h
  | cons c rest ih =>
    intro prev h
    by_cases hm : matchOK prev key (c :: rest) = true
    · simp [scanWW, hm, containsSeg_append_left]
    · have hm' : matchOK prev key (c :: rest) = false := by
        cases hmm : matchOK prev key (c :: rest)
        · rfl
        · exact absurd hmm hm
      have h' : hasWWOcc key (some c) rest = true := by
        simp [hasWWOcc, hm'] at h
        exact h
      simp [scanWW, hm']
      exact containsSeg_cons _ _ _ (ih (some c) h')

/-- If the key has no whole-word occurrence, the scan leaves the string
    unchanged. -/
lemma scanWW_eq_self_of_no_occ (key repl : List Char) :
    ∀ s prev, hasWWOcc key prev s = false →
      scanWW key repl 0 prev s = s := by
  intro s
  induction s with
  | nil => intro prev _; simp [scanWW]
  | cons c rest ih =>
    intro prev h
    simp [hasWWOcc] at h
    obtain ⟨h1, h2⟩ := h
    simp [scanWW, h1]
    exact ih (some c) h2

lemma applyRule_id (s : List Char) (kv : String × String)
    (h : hasWWOcc kv.1.data none s = false) : applyRule s kv = s :=
  scanWW_eq_self_of_no_occ _ _ _ _ h

lemma foldl_applyRule_id :
    ∀ (rules : List (String × String)) (s : List Char),
      (∀ kv ∈ rules, hasWWOcc kv.1.data none s = false) →
      rules.foldl applyRule s = s := by
  intro rules
  induction rules with
  | nil => intro s _; rfl
  | cons r rs ih =>
    intro s h
    rw [List.foldl_cons, applyRule_id s r (h r (List.mem_cons_self r rs))]
    exact ih s (fun kv hkv => h kv (List.mem_cons_of_mem r hkv))


/- ------------------------------------------------------------------ -/
/- Pipeline lemmas.                                                    -/
/- ------------------------------------------------------------------ -/

/-- The nested per-listing step never touches the error message, the fit
    flag or the request log. -/
lemma processHouseNested_frame (place : String → PlaceOutcome)
    (st : MapState) (e : String × NestedHouse) :
    (processHouseNested place st e).errorMsg = st.errorMsg ∧
    (processHouseNested place st e).fitCalled = st.fitCalled ∧
    (processHouseNested place st e).requests = st.requests := by
  obtain ⟨zpid, house⟩ := e
  unfold processHouseNested
  dsimp only
  rcases hP : house.property with _ | p
  · simp
  · rcases hA : p.address with _ | addr
    · simp [hA]
    · by_cases hv : addrValid addr = true
      · by_cases hc : truthyI p.latitude = true ∧ truthyI p.longitude = true
        · rcases hpz : place zpid <;> simp [hA, hv, hc, hpz]
        · simp [hA, hv, hc]
      · simp [hA, hv]

lemma foldl_nested_frame (place : String → PlaceOutcome) :
    ∀ (houses : List (String × NestedHouse)) (st : MapState),
      (houses.foldl (processHouseNested place) st).errorMsg = st.errorMsg ∧
      (houses.foldl (processHouseNested place) st).fitCalled = st.fitCalled ∧
      (houses.foldl (processHouseNested place) st).requests = st.requests := by
  intro houses
  induction houses with
  | nil => intro st; exact ⟨rfl, rfl, rfl⟩
  | cons e rest ih =>
    intro st
    rw [List.foldl_cons]
    obtain ⟨h1, h2, h3⟩ := ih (processHouseNested place st e)
    obtain ⟨g1, g2, g3⟩ := processHouseNested_frame place st e
    exact ⟨h1.trans g1, h2.trans g2, h3.trans g3⟩

/-- The success counter and skip list produced by the nested step depend
    only on the previous values of those two fields. -/
lemma processHouseNested_proj (place : String → PlaceOutcome)
    (s t : MapState) (e : String × NestedHouse)
    (hsc : s.successCount = t.successCount) (hsk : s.skipped = t.skipped) :
    (processHouseNested place s e).successCount = (processHouseNested place t e).successCount ∧
    (processHouseNested place s e).skipped = (processHouseNested place t e).skipped := by
  obtain ⟨zpid, house⟩ := e
  unfold processHouseNested
  dsimp only
  rcases hP : house.property with _ | p
  · simp [hsc, hsk]
  · rcases hA : p.address with _ | addr
    · simp [hA, hsc, hsk]
    · by_cases hv : addrValid addr = true
      · by_cases hc : truthyI p.latitude = true ∧ truthyI p.longitude = true
        · rcases hpz : place zpid <;> simp [hA, hv, hc, hpz, hsc, hsk]
        · simp [hA, hv, hc, hsc, hsk]
      · simp [hA, hv, hsc, hsk]

lemma foldl_nested_proj (place : String → PlaceOutcome) :
    ∀ (houses : List (String × NestedHouse)) (s t : MapState),
      s.successCount = t.successCount → s.skipped = t.skipped →
      (houses.foldl (processHouseNested place) s).successCount =
        (houses.foldl (processHouseNested place) t).successCount ∧
      (houses.foldl (processHouseNested place) s).skipped =
        (houses.foldl (processHouseNested place) t).skipped := by
  intro houses
  induction houses with
  | nil => intro s t h1 h2; exact ⟨h1, h2⟩
  | cons e rest ih =>
    intro s t h1 h2
    rw [List.foldl_cons, List.foldl_cons]
    obtain ⟨g1, g2⟩ := processHouseNested_proj place s t e h1 h2
    exact ih _ _ g1 g2


lemma processHouseFlat_glyphInv (geo : String → GeoResp) (place : String → PlaceOutcome)
    (hp : ∀ id, place id = PlaceOutcome.success)
    (st : MapState) (e : String × FlatHouse) (h : glyphInv st) :
    glyphInv (processHouseFlat geo place st e) := by
  obtain ⟨mlsId, house⟩ := e
  unfold glyphInv at h ⊢
  unfold processHouseFlat
  dsimp only
  by_cases ha : truthyS house.address = true
  · rcases hg : (geocodeAddress geo (house.address.getD "")).1 with _ | c
    · simp [ha, hg, h]
    · simp [ha, hg, hp mlsId, h, List.range_succ]
  · simp [ha, h]

lemma foldl_flat_glyphInv (geo : String → GeoResp) (place : String → PlaceOutcome)
    (hp : ∀ id, place id = PlaceOutcome.success) :
    ∀ (houses : List (String × FlatHouse)) (st : MapState), glyphInv st →
      glyphInv (houses.foldl (processHouseFlat geo place) st) := by
  intro houses
  induction houses with
  | nil => intro st h; exact h
  | cons e rest ih =>
    intro st h
    rw [List.foldl_cons]
    exact ih _ (processHouseFlat_glyphInv geo place hp st e h)

/-- For nonempty input the nested pass is: reset the aggregate, fold the
    per-listing step, then fit or set the no-display message. -/
lemma addHousesToMapNested_requests (place : String → PlaceOutcome)
    (houses : List (String × NestedHouse)) (st : MapState) :
    (addHousesToMapNested place houses st).requests = [] := by
  unfold addHousesToMapNested
  dsimp only
  by_cases h : houses = []
  · simp [h]
  · rw [if_neg h]
    have h3 := (foldl_nested_frame place houses
      { st with requests := [], fitCalled := false, bounds := [],
                successCount := 0, skipped := [] }).2.2
    split <;> simp [h3]

/-- Both final branches of the nested pass leave the success counter and
    the skip list of the folded state untouched. -/
lemma finishNested_proj (x : MapState) (m : String) :
    (if x.successCount > 0 then { x with fitCalled := true }
     else { x with errorMsg := some m }).successCount = x.successCount ∧
    (if x.successCount > 0 then { x with fitCalled := true }
     else { x with errorMsg := some m }).skipped = x.skipped := by
  split <;> exact ⟨rfl, rfl⟩



/- ------------------------------------------------------------------ -/
/- Claims.                                                             -/
/- ------------------------------------------------------------------ -/

/-- C1: the claim says escapeHtml returns no unescaped angle brackets; the
    code replaces the less-than and greater-than characters by themselves,
    so both survive unescaped, contradicting the inline comments that say
    the replaces escape them for HTML.  This theorem evaluates the escaper
    at the failing input. -/
theorem C1_escapeHtml_angle_bracket_bug :
    escapeHtml "a<b>" = "a<b>" ∧
    (escapeHtml "a<b>").data.contains ltChar = true ∧
    (escapeHtml "a<b>").data.contains gtChar = true := by decide

/-- C10: in the nested-shape variant, a listing whose latitude or longitude
    field is present but zero fails the truthiness test of the
    embedded-coordinate check, so the listing is skipped and recorded with
    its full reconstructed address. -/
theorem C10_zero_coordinate_skipped_by_truthiness
    (place : String → PlaceOutcome) (st : MapState) (zpid : String)
    (house : NestedProp) (addr : NestedAddr)
    (hA : house.address = some addr) (hv : addrValid addr = true)
    (h0 : house.latitude = some 0 ∨ house.longitude = some 0) :
    processHouseNested place st (zpid, { property := some house })
      = { st with skipped := st.skipped ++ [ ( zpid, fullAddressOf addr ) ] } := by
  unfold processHouseNested
  dsimp only
  have hc : ¬(truthyI house.latitude = true ∧ truthyI house.longitude = true) := by
    rcases h0 with h | h <;> simp [h, truthyI]
  simp [hA, hv, hc]

/-- C10 witness: a concrete listing with latitude zero and longitude five is
    skipped with its full address. -/
theorem C10_zero_coordinate_skipped_by_truthiness_witness :
    processHouseNested (fun _ => PlaceOutcome.success) initState ( "z1", houseZeroLat )
      = { initState with skipped := [ ( "z1", fullAddressOf addrOK ) ] } := by
  have h := C10_zero_coordinate_skipped_by_truthiness (fun _ => PlaceOutcome.success)
    initState "z1"
    { address := some addrOK, latitude := some 0, longitude := some 5 }
    addrOK rfl (by decide) (Or.inl rfl)
  exact h.trans (by decide)

/-- C4 counterexample: a listing carrying latitude zero and longitude five
    (both fields present) is not resolved to the embedded coordinate pair;
    it is skipped, so the claim as stated fails on the code. -/
theorem C4_counterexample_zero_latitude_not_resolved :
    (processHouseNested (fun _ => PlaceOutcome.success) initState ( "z1", houseZeroLat )).markers = [] ∧
    (processHouseNested (fun _ => PlaceOutcome.success) initState ( "z1", houseZeroLat )).successCount = 0 ∧
    (processHouseNested (fun _ => PlaceOutcome.success) initState ( "z1", houseZeroLat )).skipped
      = [ ( "z1", fullAddressOf addrOK ) ] := by decide

/-- C4 as amended: for a listing whose latitude and longitude are both
    present and truthy (nonzero), the resolver uses them directly: the
    placed marker position equals the embedded values exactly, no request
    log entry is added, and the success counter advances. -/
theorem C4_embedded_truthy_coordinates_used_directly
    (place : String → PlaceOutcome) (st : MapState) (zpid : String)
    (house : NestedProp) (addr : NestedAddr) (la lo : Int)
    (hA : house.address = some addr) (hv : addrValid addr = true)
    (hla : house.latitude = some la) (hlo : house.longitude = some lo)
    (ha : la ≠ 0) (hb : lo ≠ 0) (hp : place zpid = PlaceOutcome.success) :
    processHouseNested place st (zpid, { property := some house })
      = { st with
            markers := st.markers ++
              [ { glyph := toString (st.successCount + 1), title := fullAddressOf addr,
                  pos := { lat := la, lng := lo } } ],
            bounds := st.bounds ++ [ { lat := la, lng := lo } ],
            successCount := st.successCount + 1 } := by
  unfold processHouseNested
  dsimp only
  have hc : truthyI (some la) = true ∧ truthyI (some lo) = true := by
    simp [truthyI, ha, hb]
  simp [hA, hv, hla, hlo, hc, hp]

/-- C4 witness: a concrete listing with embedded coordinates thirty and
    minus ninety-five is placed at exactly that position. -/
theorem C4_embedded_truthy_coordinates_used_directly_witness :
    processHouseNested (fun _ => PlaceOutcome.success) initState ( "z1", houseWithCoords )
      = { initState with
            markers := [ { glyph := "1", title := fullAddressOf addrOK,
                           pos := { lat := 30, lng := -95 } } ],
            bounds := [ { lat := 30, lng := -95 } ],
            successCount := 1 } := by
  have h := C4_embedded_truthy_coordinates_used_directly (fun _ => PlaceOutcome.success)
    initState "z1"
    { address := some addrOK, latitude := some 30, longitude := some (-95) }
    addrOK 30 (-95) rfl (by decide) rfl rfl (by decide) (by decide) rfl
  exact h.trans (by decide)

/-- C3 counterexample: in the nested-shape variant a listing with a fully
    composable address and no embedded coordinates is skipped without any
    geocoding request being issued, so the claim as stated fails on the
    code. -/
theorem C3_counterexample_no_lookup_for_addressed_listing :
    (addHousesToMapNested (fun _ => PlaceOutcome.success)
        [ ( "z1", houseNoCoords ) ] initState).requests = [] ∧
    (addHousesToMapNested (fun _ => PlaceOutcome.success)
        [ ( "z1", houseNoCoords ) ] initState).skipped
      = [ ( "z1", fullAddressOf addrOK ) ] := by decide

/-- C3 as amended: in the flat-shape variant, every listing with a truthy
    free-text address has its address normalized and exactly one geocoding
    request issued, whatever the outcome; in the nested-shape variant no
    geocoding request is ever issued during a pass. -/
theorem C3_lookup_policy_per_variant :
    (∀ (geo : String → GeoResp) (place : String → PlaceOutcome) (st : MapState)
       (mlsId : String) (house : FlatHouse) (a : String),
       house.address = some a → a ≠ "" →
       (processHouseFlat geo place st (mlsId, house)).requests
         = st.requests ++ [ normalizeAddress a ]) ∧
    (∀ (place : String → PlaceOutcome) (houses : List (String × NestedHouse)) (st : MapState),
       (addHousesToMapNested place houses st).requests = []) := by
  constructor
  · intro geo place st mlsId house a hA ha
    unfold processHouseFlat
    dsimp only
    simp only [hA, Option.getD_some]
    have ht : truthyS (some a) = true := by simp [truthyS, ha]
    rcases hg : geoLookup geo (normalizeAddress a) with _ | c
    · simp [ht, geocodeAddress, hg]
    · rcases hpz : place mlsId <;> simp [ht, geocodeAddress, hg, hpz]
  · intro place houses st
    exact addHousesToMapNested_requests place houses st

/-- C3 witness: a concrete flat listing issues exactly one request carrying
    the normalized address, and a concrete nested pass issues none. -/
theorem C3_lookup_policy_per_variant_witness :
    (processHouseFlat (fun _ => GeoResp.err) (fun _ => PlaceOutcome.success)
        initState ( "m1", { address := some "1 Main St" } )).requests
      = [ "1 Main Street" ] ∧
    (addHousesToMapNested (fun _ => PlaceOutcome.success)
        [ ( "z1", houseNoCoords ) ] initState).requests = [] := by
  constructor
  · have h := C3_lookup_policy_per_variant.1 (fun _ => GeoResp.err)
      (fun _ => PlaceOutcome.success) initState "m1"
      { address := some "1 Main St" } "1 Main St" rfl (by decide)
    exact h.trans (by decide)
  · exact C3_lookup_policy_per_variant.2 (fun _ => PlaceOutcome.success)
      [ ( "z1", houseNoCoords ) ] initState


/-- C2 counterexample: in a two-listing pass where both listings resolve
    and the second placement throws, no skip record is appended for the
    throwing listing, the success count is one and no top-level message is
    set, so the failure is visible nowhere in the outcome aggregate; the
    claim as stated fails on the code. -/
theorem C2_counterexample_throwing_placement_unrecorded :
    (addHousesToMapFlat geoBoth placeFailB [ ( "h1", flatA ), ( "h2", flatB ) ] initState).skipped = [] ∧
    (addHousesToMapFlat geoBoth placeFailB [ ( "h1", flatA ), ( "h2", flatB ) ] initState).successCount = 1 ∧
    (addHousesToMapFlat geoBoth placeFailB [ ( "h1", flatA ), ( "h2", flatB ) ] initState).errorMsg = none := by
  decide

/-- C2 as amended: a listing that resolves but whose placement block throws
    is recorded nowhere: the skip list, the success counter and the error
    message are all left unchanged by its iteration (the error is only
    logged to the console), and the loop simply moves on to the remaining
    listings. -/
theorem C2_placement_throw_leaves_no_record
    (geo : String → GeoResp) (place : String → PlaceOutcome) (st : MapState)
    (mlsId : String) (house : FlatHouse) (a : String) (c : Coord)
    (hA : house.address = some a) (ha : a ≠ "")
    (hg : geoLookup geo (normalizeAddress a) = some c)
    (hp : place mlsId ≠ PlaceOutcome.success) :
    (processHouseFlat geo place st (mlsId, house)).skipped = st.skipped ∧
    (processHouseFlat geo place st (mlsId, house)).successCount = st.successCount ∧
    (processHouseFlat geo place st (mlsId, house)).errorMsg = st.errorMsg := by
  unfold processHouseFlat
  dsimp only
  simp only [hA, Option.getD_some]
  have ht : truthyS (some a) = true := by simp [truthyS, ha]
  rcases hpz : place mlsId
  · exact absurd hpz hp
  · simp [ht, geocodeAddress, hg, hpz]
  · simp [ht, geocodeAddress, hg, hpz]

/-- C2 witness: a concrete resolving listing whose placement throws leaves
    the empty aggregate empty. -/
theorem C2_placement_throw_leaves_no_record_witness :
    (processHouseFlat geoBoth (fun _ => PlaceOutcome.throwBeforePush)
        initState ( "h2", flatB )).skipped = [] ∧
    (processHouseFlat geoBoth (fun _ => PlaceOutcome.throwBeforePush)
        initState ( "h2", flatB )).successCount = 0 ∧
    (processHouseFlat geoBoth (fun _ => PlaceOutcome.throwBeforePush)
        initState ( "h2", flatB )).errorMsg = none := by
  have h := C2_placement_throw_leaves_no_record geoBoth
    (fun _ => PlaceOutcome.throwBeforePush) initState "h2" flatB "2 B St"
    { lat := 1, lng := 2 } rfl (by decide) rfl (by decide)
  exact ⟨h.1, h.2.1, h.2.2⟩

/-- C6 counterexample: a listing whose lookup throws yields a skip record
    that only carries the listing id and the raw address; no field of the
    outcome carries a reason string, so the claim as stated fails on the
    code. -/
theorem C6_counterexample_skip_record_carries_no_reason :
    (addHousesToMapFlat geoErr (fun _ => PlaceOutcome.success)
        [ ( "m1", flatMain ) ] initState).skipped = [ ( "m1", "1 Main St" ) ] ∧
    (∀ r ∈ (addHousesToMapFlat geoErr (fun _ => PlaceOutcome.success)
        [ ( "m1", flatMain ) ] initState).skipped, r.2 ≠ "lookup failed" ∧ r.2 ≠ "no address") ∧
    (addHousesToMapFlat geoErr (fun _ => PlaceOutcome.success)
        [ ( "m1", flatMain ) ] initState).errorMsg = some noneDisplayedFlatMsg := by
  decide

/-- C6 as amended: a listing whose lookup returns no result or throws is
    converted to a skip record carrying the listing id and the raw address
    (no reason string exists in the record), with everything else unchanged
    so the loop continues; a listing with a falsy address is skipped with
    the fixed no-address text without issuing a request. -/
theorem C6_lookup_failure_converted_to_skip :
    (∀ (geo : String → GeoResp) (place : String → PlaceOutcome) (st : MapState)
       (mlsId : String) (house : FlatHouse) (a : String),
       house.address = some a → a ≠ "" →
       geoLookup geo (normalizeAddress a) = none →
       processHouseFlat geo place st (mlsId, house)
         = { st with requests := st.requests ++ [ normalizeAddress a ],
                     skipped := st.skipped ++ [ ( mlsId, a ) ] }) ∧
    (∀ (geo : String → GeoResp) (place : String → PlaceOutcome) (st : MapState)
       (mlsId : String) (house : FlatHouse),
       truthyS house.address = false →
       processHouseFlat geo place st (mlsId, house)
         = { st with skipped := st.skipped ++ [ ( mlsId, noAddressMsg ) ] }) := by
  constructor
  · intro geo place st mlsId house a hA ha hg
    unfold processHouseFlat
    dsimp only
    simp only [hA, Option.getD_some]
    have ht : truthyS (some a) = true := by simp [truthyS, ha]
    simp [ht, geocodeAddress, hg]
  · intro geo place st mlsId house hA
    unfold processHouseFlat
    dsimp only
    simp [hA]

/-- C6 witness: a concrete erroring lookup yields the raw-address skip
    record, and a concrete address-less listing yields the no-address skip
    record. -/
theorem C6_lookup_failure_converted_to_skip_witness :
    processHouseFlat geoErr (fun _ => PlaceOutcome.success) initState ( "m1", flatMain )
      = { initState with requests := [ "1 Main Street" ],
                         skipped := [ ( "m1", "1 Main St" ) ] } ∧
    processHouseFlat geoErr (fun _ => PlaceOutcome.success) initState ( "m2", { address := none } )
      = { initState with skipped := [ ( "m2", noAddressMsg ) ] } := by
  constructor
  · have h := C6_lookup_failure_converted_to_skip.1 geoErr
      (fun _ => PlaceOutcome.success) initState "m1" flatMain "1 Main St" rfl (by decide) rfl
    exact h.trans (by decide)
  · have h := C6_lookup_failure_converted_to_skip.2 geoErr
      (fun _ => PlaceOutcome.success) initState "m2" { address := none } rfl
    exact h.trans (by decide)

/-- C7: when no placement block throws, the glyphs of the markers placed in
    a pass started from the fresh mount state are exactly the one-based
    success sequence indices, in order, independent of the listing
    identifiers. -/
theorem C7_glyphs_are_success_sequence_indices
    (geo : String → GeoResp) (place : String → PlaceOutcome)
    (houses : List (String × FlatHouse))
    (hp : ∀ id, place id = PlaceOutcome.success) :
    (addHousesToMapFlat geo place houses initState).markers.map Marker.glyph
      = (List.range (addHousesToMapFlat geo place houses initState).successCount).map
          (fun i => toString (i + 1)) := by
  unfold addHousesToMapFlat
  dsimp only
  by_cases h : houses = []
  · simp [h]
    rfl
  · rw [if_neg h]
    have hinv := foldl_flat_glyphInv geo place hp houses
      { { initState with requests := [], fitCalled := false, bounds := [] } with
          successCount := 0, skipped := [] }
      (by simp [glyphInv, initState])
    unfold glyphInv at hinv
    split <;> simpa using hinv

/-- C7 witness: the scenario with two listings, one resolvable and one
    whose lookup errors, ends with success count one, the surviving glyph
    label one, and the erroring listing skipped. -/
theorem C7_glyphs_are_success_sequence_indices_witness :
    (addHousesToMapFlat geoScenC (fun _ => PlaceOutcome.success)
        [ ( "h1", flatA ), ( "h2", flatB ) ] initState).markers.map Marker.glyph
      = (List.range (addHousesToMapFlat geoScenC (fun _ => PlaceOutcome.success)
          [ ( "h1", flatA ), ( "h2", flatB ) ] initState).successCount).map
            (fun i => toString (i + 1)) ∧
    (addHousesToMapFlat geoScenC (fun _ => PlaceOutcome.success)
        [ ( "h1", flatA ), ( "h2", flatB ) ] initState).successCount = 1 ∧
    (addHousesToMapFlat geoScenC (fun _ => PlaceOutcome.success)
        [ ( "h1", flatA ), ( "h2", flatB ) ] initState).markers.map Marker.glyph = [ "1" ] ∧
    (addHousesToMapFlat geoScenC (fun _ => PlaceOutcome.success)
        [ ( "h1", flatA ), ( "h2", flatB ) ] initState).skipped = [ ( "h2", "2 B St" ) ] := by
  refine ⟨C7_glyphs_are_success_sequence_indices geoScenC (fun _ => PlaceOutcome.success)
    [ ( "h1", flatA ), ( "h2", flatB ) ] (fun id => rfl), by decide, by decide, by decide⟩


/-- C8 counterexample: for a pass whose only listing misses the postal
    code, the top-level message is the exact source string, which differs
    from the message the claim quotes, and the skip record text differs
    from the quoted reason; the claim as stated fails on the code. -/
theorem C8_counterexample_exact_strings_differ :
    (addHousesToMapNested (fun _ => PlaceOutcome.success)
        [ ( "z1", houseNoZip ) ] initState).errorMsg = some noneDisplayedNestedMsg ∧
    (addHousesToMapNested (fun _ => PlaceOutcome.success)
        [ ( "z1", houseNoZip ) ] initState).errorMsg ≠ some "No houses could be displayed." ∧
    (addHousesToMapNested (fun _ => PlaceOutcome.success)
        [ ( "z1", houseNoZip ) ] initState).skipped = [ ( "z1", invalidAddressMsg ) ] ∧
    (∀ r ∈ (addHousesToMapNested (fun _ => PlaceOutcome.success)
        [ ( "z1", houseNoZip ) ] initState).skipped, r.2 ≠ "invalid address") ∧
    (addHousesToMapNested (fun _ => PlaceOutcome.success)
        [ ( "z1", houseNoZip ) ] initState).fitCalled = false := by decide

/-- C8 as amended: for every nonempty pass of the nested variant, the
    viewport fit is invoked exactly when at least one placement succeeded,
    and a pass with zero successes sets the top-level message to the exact
    source text about no houses being displayable on the map (the skip
    record for an invalid address carries the fixed source text, as the
    witness shows). -/
theorem C8_fit_iff_success_and_exact_message
    (place : String → PlaceOutcome) (houses : List (String × NestedHouse))
    (st : MapState) (h : houses ≠ []) :
    ((addHousesToMapNested place houses st).fitCalled = true
        ↔ 0 < (addHousesToMapNested place houses st).successCount) ∧
    ((addHousesToMapNested place houses st).successCount = 0 →
        (addHousesToMapNested place houses st).errorMsg = some noneDisplayedNestedMsg) := by
  unfold addHousesToMapNested
  dsimp only
  rw [if_neg h]
  have hfit := (foldl_nested_frame place houses
    { { st with requests := [], fitCalled := false, bounds := [] } with
        successCount := 0, skipped := [] }).2.1
  generalize hG : houses.foldl (processHouseNested place)
      { { st with requests := [], fitCalled := false, bounds := [] } with
          successCount := 0, skipped := [] } = st2 at hfit ⊢
  simp only [] at hfit
  by_cases hs : st2.successCount > 0
  · rw [if_pos hs]
    refine ⟨by simp [hs], ?_⟩
    intro h0
    simp at h0
    omega
  · rw [if_neg hs]
    have h0 : st2.successCount = 0 := Nat.eq_zero_of_not_pos hs
    refine ⟨by simp [hfit, h0], fun _ => by simp⟩

/-- C8 witness: the pass over the single postal-code-less listing satisfies
    the amended statement, and its skip record carries the fixed
    invalid-address text. -/
theorem C8_fit_iff_success_and_exact_message_witness :
    (((addHousesToMapNested (fun _ => PlaceOutcome.success)
          [ ( "z1", houseNoZip ) ] initState).fitCalled = true
        ↔ 0 < (addHousesToMapNested (fun _ => PlaceOutcome.success)
          [ ( "z1", houseNoZip ) ] initState).successCount) ∧
      ((addHousesToMapNested (fun _ => PlaceOutcome.success)
          [ ( "z1", houseNoZip ) ] initState).successCount = 0 →
        (addHousesToMapNested (fun _ => PlaceOutcome.success)
          [ ( "z1", houseNoZip ) ] initState).errorMsg = some noneDisplayedNestedMsg)) ∧
    (addHousesToMapNested (fun _ => PlaceOutcome.success)
        [ ( "z1", houseNoZip ) ] initState).skipped = [ ( "z1", invalidAddressMsg ) ] := by
  refine ⟨C8_fit_iff_success_and_exact_message (fun _ => PlaceOutcome.success)
    [ ( "z1", houseNoZip ) ] initState (by decide), by decide⟩

/-- C9 counterexample: a pass over zero listings returns early before the
    aggregate reset, so a stale success count of two and a stale skip
    record survive into the new pass outcome; the claim as stated fails on
    the code. -/
theorem C9_counterexample_zero_listing_pass_keeps_old_aggregate :
    (addHousesToMapNested (fun _ => PlaceOutcome.success) [] dirtyState).successCount = 2 ∧
    (addHousesToMapNested (fun _ => PlaceOutcome.success) [] dirtyState).skipped
      = [ ( "old", "rec" ) ] ∧
    (addHousesToMapNested (fun _ => PlaceOutcome.success) [] dirtyState).errorMsg
      = some noHousesProvidedMsg := by decide

/-- C9 as amended: for every pass over at least one listing the aggregate
    is rebuilt from scratch, so the resulting success count and skip list
    are independent of the state the pass started from; a pass over zero
    listings returns early with the no-houses message and leaves the
    previous aggregate untouched. -/
theorem C9_aggregate_rebuilt_only_for_nonempty_passes :
    (∀ (place : String → PlaceOutcome) (houses : List (String × NestedHouse)) (s t : MapState),
       houses ≠ [] →
       (addHousesToMapNested place houses s).successCount
         = (addHousesToMapNested place houses t).successCount ∧
       (addHousesToMapNested place houses s).skipped
         = (addHousesToMapNested place houses t).skipped) ∧
    (∀ (place : String → PlaceOutcome) (st : MapState),
       (addHousesToMapNested place [] st).successCount = st.successCount ∧
       (addHousesToMapNested place [] st).skipped = st.skipped ∧
       (addHousesToMapNested place [] st).errorMsg = some noHousesProvidedMsg) := by
  constructor
  · intro place houses s t h
    unfold addHousesToMapNested
    dsimp only
    rw [if_neg h, if_neg h]
    obtain ⟨g1, g2⟩ := foldl_nested_proj place houses
      { { s with requests := [], fitCalled := false, bounds := [] } with
          successCount := 0, skipped := [] }
      { { t with requests := [], fitCalled := false, bounds := [] } with
          successCount := 0, skipped := [] }
      rfl rfl
    constructor
    · rw [(finishNested_proj _ noneDisplayedNestedMsg).1,
        (finishNested_proj _ noneDisplayedNestedMsg).1]
      exact g1
    · rw [(finishNested_proj _ noneDisplayedNestedMsg).2,
        (finishNested_proj _ noneDisplayedNestedMsg).2]
      exact g2
  · intro place st
    exact ⟨rfl, rfl, rfl⟩

/-- C9 witness: the same single-listing pass started from the fresh state
    and from a dirty state yields the same aggregate, and the zero-listing
    pass from the dirty state keeps the stale aggregate with the no-houses
    message. -/
theorem C9_aggregate_rebuilt_only_for_nonempty_passes_witness :
    ((addHousesToMapNested (fun _ => PlaceOutcome.success)
        [ ( "z1", houseNoCoords ) ] dirtyState).successCount
      = (addHousesToMapNested (fun _ => PlaceOutcome.success)
        [ ( "z1", houseNoCoords ) ] initState).successCount ∧
     (addHousesToMapNested (fun _ => PlaceOutcome.success)
        [ ( "z1", houseNoCoords ) ] dirtyState).skipped
      = (addHousesToMapNested (fun _ => PlaceOutcome.success)
        [ ( "z1", houseNoCoords ) ] initState).skipped) ∧
    ((addHousesToMapNested (fun _ => PlaceOutcome.success) [] dirtyState).successCount
        = dirtyState.successCount ∧
     (addHousesToMapNested (fun _ => PlaceOutcome.success) [] dirtyState).skipped
        = dirtyState.skipped ∧
     (addHousesToMapNested (fun _ => PlaceOutcome.success) [] dirtyState).errorMsg
        = some noHousesProvidedMsg) := by
  exact ⟨C9_aggregate_rebuilt_only_for_nonempty_passes.1 (fun _ => PlaceOutcome.success)
    [ ( "z1", houseNoCoords ) ] dirtyState initState (by decide),
    C9_aggregate_rebuilt_only_for_nonempty_passes.2 (fun _ => PlaceOutcome.success) dirtyState⟩

/-- C5 counterexample: the address containing the table token for highway
    as a whole word normalizes to a string that does not contain the
    expansion of that token, because a later table rule rewrites the
    expansion again; the claim as stated fails on the code. -/
theorem C5_counterexample_us_hwy_cascade :
    hasWWOcc ("Hwy".data) none ("Us Hwy".data) = true ∧
    normalizeAddress "Us Hwy" = "US Hwy" ∧
    containsSeg ("Highway".data) ((normalizeAddress "Us Hwy").data) = false := by decide

/-- C5 as amended: each table rule, when applied during normalization,
    replaces exactly the whole-word occurrences of its token: if the token
    occurs as a whole word the expansion appears in the output of that
    rule (a later rule may rewrite it further), and if the token occurs
    only embedded inside larger words the rule leaves the string unchanged;
    consequently an address with no whole-word occurrence of any table
    token passes through normalization unchanged apart from trimming. -/
theorem C5_whole_word_rule_behaviour (k v : String) (hkv : ( k, v ) ∈ replacements) :
    (∀ (prev : Option Char) (s : List Char),
       hasWWOcc k.data prev s = true →
       containsSeg v.data (replaceWordAll k.data v.data prev s) = true) ∧
    (∀ (prev : Option Char) (s : List Char),
       hasWWOcc k.data prev s = false →
       replaceWordAll k.data v.data prev s = s) ∧
    (∀ (address : String), address ≠ "" →
       (∀ kv ∈ replacements, hasWWOcc kv.1.data none (trimChars address.data) = false) →
       normalizeAddress address = String.mk (trimChars address.data)) := by
  refine ⟨?_, ?_, ?_⟩
  · intro prev s h
    exact scanWW_contains_of_occ k.data v.data s prev h
  · intro prev s h
    exact scanWW_eq_self_of_no_occ k.data v.data s prev h
  · intro address ha hno
    unfold normalizeAddress
    rw [if_neg ha, foldl_applyRule_id replacements (trimChars address.data) hno]

/-- C5 witness: the street rule expands a whole-word token, leaves an
    embedded token untouched, and an address with no whole-word token
    occurrence passes through normalization unchanged. -/
theorem C5_whole_word_rule_behaviour_witness :
    containsSeg ("Street".data)
      (replaceWordAll ("St".data) ("Street".data) none ("Main St".data)) = true ∧
    replaceWordAll ("St".data) ("Street".data) none ("Strand".data) = "Strand".data ∧
    normalizeAddress "Broadway" = "Broadway" := by
  have h := C5_whole_word_rule_behaviour "St" "Street" (by decide)
  refine ⟨h.1 none ("Main St".data) (by decide),
    h.2.1 none ("Strand".data) (by decide), ?_⟩
  have h3 := h.2.2 "Broadway" (by decide) (by decide)
  exact h3.trans (by decide)
